import Mathlib

/-!
# Verification of the multi-agent coordination workflow

Shallow embedding of the orchestration core of the Feynman learning system:
the shared `MultiAgentState`, the per-stage LangGraph node functions, the
`_route_next_step` routing decision, the finalization node, the graph driver
with its recursion limit, and the chat-layer result/stream assembly.

The orchestration source survives in the repository as code excerpts inside
its documentation:
* `environments/README.md` (recursion-limit fix report): the repaired head of
  `_route_next_step`, the repaired `_coordinator_finalization_node`, and the
  `recursion_limit: 50` execution config;
* `docs/agent_collaboration_mechanism.md`: the `MultiAgentState` TypedDict,
  the coordinator entry node, the five stage nodes, and the body of
  `_route_next_step` (decision-based dispatch with the re-entry guard);
* `docs/agentic_ai_system_detailed_explanation.md`: the graph construction
  (conditional edges out of `coordinator_entry`, stage nodes returning to the
  entry, finalization flowing to END);
* the architecture summary (`unnamed/part_007`): the chat endpoint's use of
  `execute_multi_agent_workflow` and `stream_multi_agent_workflow`.

Python dict accesses are modelled by the fields the orchestration code
actually reads; fields it never reads (agent ids, timestamps, durations) are
omitted and stage result dicts it only stores are kept opaque.
-/

namespace Feynman

/-- An opaque stage-result payload: the orchestration layer stores these
dicts into the state without inspecting them (analysis, validation and
orchestration results, learning report). -/
structure OpaqueResult where
  raw : String
  deriving DecidableEq, Repr

/-- One question of a `QuestionSet`; the node only reads
`q.get("content", "")`, modelled as the `content` field. -/
structure Question where
  content : String
  deriving DecidableEq, Repr

/-- The `question_set` dict produced by the QuestionStrategist
(`QuestionSet` model in the architecture summary): primary, follow-up and
clarification question lists plus the estimated time. -/
structure QuestionSet where
  primary_questions : List Question
  follow_up_questions : List Question
  clarification_questions : List Question
  total_estimated_time : Nat
  deriving DecidableEq, Repr

/-- The result dict of the question-generation stage as read by
`_question_generation_node`: `response.result.get("question_set", {})`.
A missing key is folded into the default empty `QuestionSet`. -/
structure QuestionResultData where
  question_set : QuestionSet
  deriving DecidableEq, Repr

/-- One insight of the InsightSynthesizer's output; the node reads
`insight.get("content", "")`. -/
structure Insight where
  content : String
  deriving DecidableEq, Repr

/-- The result dict of the insight-synthesis stage as read by
`_insight_synthesis_node`: `response.result.get("insights", [])`. -/
structure InsightResultData where
  insights : List Insight
  deriving DecidableEq, Repr

/-- The coordination result as read by `_coordinator_entry_node`:
`response.result.get("coordination_decision", {}).get("next_phase")`.
`next_phase = none` models an absent key. -/
structure CoordinationResult where
  next_phase : Option String
  deriving DecidableEq, Repr

/-- The finalization result as read by `_coordinator_finalization_node`:
`response.result.get("learning_report", {})`. -/
structure FinalizationResult where
  learning_report : OpaqueResult
  deriving DecidableEq, Repr

/-- Python `AgentResponse` from the agent protocol, restricted to the fields the
workflow nodes read: `success` and `result`. -/
structure AgentResponse (α : Type) where
  success : Bool
  result : α
  deriving DecidableEq, Repr

/-- The `MultiAgentState` TypedDict threaded through the LangGraph
workflow (docs/agent_collaboration_mechanism.md §状态数据结构).
`coordinator_decision` stores only the `next_phase` key of the decision
dict, since that is the only key the entry node and router ever read
(`none` models an absent decision or an absent key).
`error_log` entries are kept opaque as strings. -/
structure MultiAgentState where
  session_id : String
  topic : String
  user_explanation : String
  workflow_id : String
  current_phase : String
  coordinator_decision : Option String
  analysis_results : Option OpaqueResult
  validation_results : Option OpaqueResult
  question_results : Option QuestionResultData
  orchestration_results : Option OpaqueResult
  insight_results : Option InsightResultData
  final_questions : List String
  learning_insights : List String
  learning_report : Option OpaqueResult
  completed_tasks : List String
  error_log : List String
  deriving DecidableEq, Repr

/-- The fresh state the workflow starts a turn from: inputs copied in,
every result slot empty, `completed_tasks` and `error_log` empty. -/
def initialState (topic user_explanation session_id : String) : MultiAgentState :=
  { session_id := session_id
    topic := topic
    user_explanation := user_explanation
    workflow_id := session_id
    current_phase := ""
    coordinator_decision := none
    analysis_results := none
    validation_results := none
    question_results := none
    orchestration_results := none
    insight_results := none
    final_questions := []
    learning_insights := []
    learning_report := none
    completed_tasks := []
    error_log := [] }

/-- Python `required_tasks` of `_route_next_step`: the minimum stages for a valid
turn. -/
def required_tasks : List String := ["explanation_analysis", "question_generation"]

/-- The keys of the `route_mapping` dict in `_route_next_step` (each key
maps to the node of the same name; `"finalization"` maps to the
`coordinator_finalization` node). -/
def route_mapping : List String :=
  ["explanation_analysis", "knowledge_validation", "question_generation",
   "conversation_orchestration", "insight_synthesis", "finalization"]

/-- Python `_route_next_step` after the recursion-limit repair: the head (forced
finalization once the required tasks are complete, forced end once
finalization is complete) is the `修复后` code of the fix report in
`environments/README.md`; the decision-based dispatch that follows (default
phase `"explanation_analysis"`, the route-mapping membership and re-entry
guard, and the fall-through to finalization) is the retained body shown in
`docs/agent_collaboration_mechanism.md`. -/
def route_next_step (s : MultiAgentState) : String :=
  let completed_tasks := s.completed_tasks
  let all_required_completed := required_tasks.all (fun t => completed_tasks.contains t)
  if all_required_completed then ("finalization")
  else if completed_tasks.contains ("coordinator_finalization") then ("end")
  else
    let next_phase := s.coordinator_decision.getD ("explanation_analysis")
    if route_mapping.contains next_phase && !(completed_tasks.contains next_phase)
    then next_phase
    else ("finalization")

/-- Python `_coordinator_entry_node`: on a successful coordination response the
decision and `current_phase` (defaulting to `"analysis"`) are stored;
otherwise the state is returned unchanged (the update is guarded by
`if response.success:`). -/
def coordinator_entry_node (r : AgentResponse CoordinationResult)
    (s : MultiAgentState) : MultiAgentState :=
  if r.success then
    { s with coordinator_decision := r.result.next_phase
             current_phase := r.result.next_phase.getD ("analysis") }
  else s

/-- Python `_explanation_analysis_node`: on success the result is stored and the
stage is appended to `completed_tasks`; otherwise the state is returned
unchanged. -/
def explanation_analysis_node (r : AgentResponse OpaqueResult)
    (s : MultiAgentState) : MultiAgentState :=
  if r.success then
    { s with analysis_results := some r.result
             completed_tasks := s.completed_tasks ++ ["explanation_analysis"] }
  else s

/-- Python `_knowledge_validation_node`: same success-guarded merge for the
knowledge-validation stage. -/
def knowledge_validation_node (r : AgentResponse OpaqueResult)
    (s : MultiAgentState) : MultiAgentState :=
  if r.success then
    { s with validation_results := some r.result
             completed_tasks := s.completed_tasks ++ ["knowledge_validation"] }
  else s

/-- Python `_question_generation_node`: on success the result is stored, the stage
is appended, and `final_questions` is extracted as the `content` of each of
`question_set.primary_questions`; otherwise the state is returned
unchanged. -/
def question_generation_node (r : AgentResponse QuestionResultData)
    (s : MultiAgentState) : MultiAgentState :=
  if r.success then
    { s with question_results := some r.result
             completed_tasks := s.completed_tasks ++ ["question_generation"]
             final_questions := r.result.question_set.primary_questions.map Question.content }
  else s

/-- Python `_conversation_orchestration_node`: same success-guarded merge for the
conversation-orchestration stage. -/
def conversation_orchestration_node (r : AgentResponse OpaqueResult)
    (s : MultiAgentState) : MultiAgentState :=
  if r.success then
    { s with orchestration_results := some r.result
             completed_tasks := s.completed_tasks ++ ["conversation_orchestration"] }
  else s

/-- Python `_insight_synthesis_node`: on success the result is stored, the stage is
appended, and `learning_insights` is extracted from the insights list;
otherwise the state is returned unchanged. -/
def insight_synthesis_node (r : AgentResponse InsightResultData)
    (s : MultiAgentState) : MultiAgentState :=
  if r.success then
    { s with insight_results := some r.result
             completed_tasks := s.completed_tasks ++ ["insight_synthesis"]
             learning_insights := r.result.insights.map Insight.content }
  else s

/-- Python `_coordinator_finalization_node` after the repair (`修复后` in the fix
report): skip when `"coordinator_finalization"` is already in
`completed_tasks`; otherwise run the report generation inside `try` — the
`throws` flag models an exception escaping it — and append
`"coordinator_finalization"` on both the success path and the `except`
path.  On the non-throwing path the learning report is stored when the
synthesizer response succeeds and `current_phase` is set to `"completed"`
(docs/agent_collaboration_mechanism.md, step 7). -/
def coordinator_finalization_node (throws : Bool)
    (r : AgentResponse FinalizationResult) (s : MultiAgentState) : MultiAgentState :=
  if s.completed_tasks.contains ("coordinator_finalization") then s
  else if throws then
    { s with completed_tasks := s.completed_tasks ++ ["coordinator_finalization"] }
  else
    let s1 := if r.success then { s with learning_report := some r.result.learning_report } else s
    { s1 with current_phase := "completed"
              completed_tasks := s1.completed_tasks ++ ["coordinator_finalization"] }

/-! ## The workflow graph and its driver -/

/-- The nodes of the compiled LangGraph workflow
(`_build_workflow_graph`), plus the terminal `END` sentinel
(`endNode`). -/
inductive Node where
  | coordinator_entry
  | explanation_analysis
  | knowledge_validation
  | question_generation
  | conversation_orchestration
  | insight_synthesis
  | coordinator_finalization
  | endNode
  deriving DecidableEq, Repr

/-- The conditional-edges dict installed on `coordinator_entry`: each route
string returned by `_route_next_step` is mapped to its node;
`"finalization"` goes to `coordinator_finalization` and `"end"` to END. -/
def routeTarget : String → Node
  | "explanation_analysis" => .explanation_analysis
  | "knowledge_validation" => .knowledge_validation
  | "question_generation" => .question_generation
  | "conversation_orchestration" => .conversation_orchestration
  | "insight_synthesis" => .insight_synthesis
  | "finalization" => .coordinator_finalization
  | _ => .endNode

/-- A behavior of the agents during one turn: for the `n`-th graph
super-step, the response each agent would give if its node runs at that
step, and whether the finalization node's report generation would throw.
Quantifying over `Oracle` quantifies over every possible sequence of stage
outcomes and coordinator decisions. -/
structure Oracle where
  coord : Nat → AgentResponse CoordinationResult
  analysis : Nat → AgentResponse OpaqueResult
  validation : Nat → AgentResponse OpaqueResult
  question : Nat → AgentResponse QuestionResultData
  orchestration : Nat → AgentResponse OpaqueResult
  insight : Nat → AgentResponse InsightResultData
  finalizationThrows : Nat → Bool
  finalization : Nat → AgentResponse FinalizationResult

/-- How a graph run ends: reaching END with a final state, or the
`GraphRecursionError` abort LangGraph raises when the recursion limit is
exhausted (the very error quoted in the repository's fix report). -/
inductive Outcome where
  | finished (s : MultiAgentState)
  | recursionError (s : MultiAgentState)
  deriving DecidableEq, Repr

/-- The state an outcome carries. -/
def Outcome.state : Outcome → MultiAgentState
  | .finished s => s
  | .recursionError s => s

/-- Result of driving the graph: the outcome, the number of node
transitions executed, and the order in which stage results were merged
into the state (one entry per successful stage merge). -/
structure RunResult where
  outcome : Outcome
  steps : Nat
  mergeLog : List String
  deriving DecidableEq, Repr

/-- The LangGraph execution loop: starting at a node with `fuel` remaining
super-steps, execute the node, follow its edge (conditional edges out of
`coordinator_entry`, fixed edges from every stage node back to
`coordinator_entry`, finalization to END), and abort with a recursion
error when the fuel runs out before END is reached.  The `count` argument
numbers the super-steps and selects the oracle's responses. -/
def runAux (o : Oracle) : Nat → Nat → Node → MultiAgentState → List String → RunResult
  | 0, count, node, s, log =>
    match node with
    | .endNode => ⟨.finished s, count, log⟩
    | _ => ⟨.recursionError s, count, log⟩
  | fuel + 1, count, node, s, log =>
    match node with
    | .endNode => ⟨.finished s, count, log⟩
    | .coordinator_entry =>
      let s' := coordinator_entry_node (o.coord count) s
      runAux o fuel (count + 1) (routeTarget (route_next_step s')) s' log
    | .explanation_analysis =>
      let r := o.analysis count
      runAux o fuel (count + 1) .coordinator_entry (explanation_analysis_node r s)
        (log ++ if r.success then ["explanation_analysis"] else [])
    | .knowledge_validation =>
      let r := o.validation count
      runAux o fuel (count + 1) .coordinator_entry (knowledge_validation_node r s)
        (log ++ if r.success then ["knowledge_validation"] else [])
    | .question_generation =>
      let r := o.question count
      runAux o fuel (count + 1) .coordinator_entry (question_generation_node r s)
        (log ++ if r.success then ["question_generation"] else [])
    | .conversation_orchestration =>
      let r := o.orchestration count
      runAux o fuel (count + 1) .coordinator_entry (conversation_orchestration_node r s)
        (log ++ if r.success then ["conversation_orchestration"] else [])
    | .insight_synthesis =>
      let r := o.insight count
      runAux o fuel (count + 1) .coordinator_entry (insight_synthesis_node r s)
        (log ++ if r.success then ["insight_synthesis"] else [])
    | .coordinator_finalization =>
      runAux o fuel (count + 1) .endNode
        (coordinator_finalization_node (o.finalizationThrows count) (o.finalization count) s) log

/-- The iteration ceiling: `config={"recursion_limit": 50}` set at
`workflow_graph.ainvoke` (environments/README.md fix report). -/
def recursion_limit : Nat := 50

/-- One graph invocation: drive the compiled graph from `coordinator_entry`
with the configured recursion limit. -/
def run (o : Oracle) (s : MultiAgentState) : RunResult :=
  runAux o recursion_limit 0 .coordinator_entry s []

/-! ## The chat-layer boundary -/

/-- The error SessionState construction reports for empty inputs. -/
inductive InvalidInputError where
  | emptyTopic
  | emptyUserExplanation
  deriving DecidableEq, Repr

/-- Modelled from the spec: the SessionState constructor's empty-input
validation is not present under `src/` (only the `ChatRequest` declaration
is); §4.1 requires construction to fail with `InvalidInputError` when
`topic` or `user_explanation` is empty, and otherwise yield the fresh
initial state. -/
def mkSessionState (topic user_explanation session_id : String) :
    Except InvalidInputError MultiAgentState :=
  if topic = "" then .error .emptyTopic
  else if user_explanation = "" then .error .emptyUserExplanation
  else .ok (initialState topic user_explanation session_id)

/-- The result dict of `execute_multi_agent_workflow` restricted to the
keys its callers read (`questions`, `learning_insights`, `success`,
`completed_tasks`, `error_log` — chat endpoint and tests in the
architecture summary). -/
structure TurnResult where
  questions : List String
  learning_insights : List String
  success : Bool
  completed_tasks : List String
  error_log : List String
  deriving DecidableEq, Repr

/-- Modelled from the spec: the body of `execute_multi_agent_workflow` that
assembles the result dict from the final graph state is not present under
`src/` (only its callers are).  Per §6/§7 a finished run reports the final
state's questions and insights with `success=True`, and a fatal abort is
reported to the caller as a failed `TurnResult` rather than a crash. -/
def turnResultOf (rr : RunResult) : TurnResult :=
  match rr.outcome with
  | .finished s => ⟨s.final_questions, s.learning_insights, true, s.completed_tasks, s.error_log⟩
  | .recursionError s => ⟨s.final_questions, s.learning_insights, false, s.completed_tasks, s.error_log⟩

/-- Modelled from the spec: `execute_turn` (§6) — construct the session
state, abort with `InvalidInputError` before any stage runs when an input
is empty, otherwise drive the workflow graph and assemble the turn
result. -/
def executeTurn (o : Oracle) (topic user_explanation session_id : String) :
    Except InvalidInputError TurnResult :=
  match mkSessionState topic user_explanation session_id with
  | .error e => .error e
  | .ok s => .ok (turnResultOf (run o s))

/-- The incremental events of the streaming chat endpoint. -/
inductive StreamEvent where
  | start
  | question (content : String)
  | insight (content : String)
  | error (content : String)
  deriving DecidableEq, Repr

/-- Python `stream_multi_agent_workflow` (architecture summary, chat endpoint):
emit a start event, await the complete workflow result, then send every
question as a `question` event followed by every learning insight as an
`insight` event. -/
def stream_multi_agent_workflow (result : TurnResult) : List StreamEvent :=
  StreamEvent.start ::
    (result.questions.map StreamEvent.question ++
     result.learning_insights.map StreamEvent.insight)

/-- Follows the spec's words (§6, C9): the stream of events a turn should
emit "as stages complete", ordered by the merge order of stage results —
for each merged stage in merge order, the question events for a merged
question-generation result and the insight events for a merged
insight-synthesis result.  Defined only to compare the implemented stream
against the specified ordering. -/
def merge_order_stream (rr : RunResult) : List StreamEvent :=
  let final := rr.outcome.state
  rr.mergeLog.flatMap fun st =>
    if st = "question_generation" then final.final_questions.map StreamEvent.question
    else if st = "insight_synthesis" then final.learning_insights.map StreamEvent.insight
    else []

/-! ## The step relation

A relational rendering of the same graph, quantifying over every possible
agent response at every step; used for the reachability invariants. -/

/-- One graph transition: a pair of the node about to run and the current
state steps to the pair of the next node and the updated state, for any
response the running node's agent may give. -/
inductive WStep : Node × MultiAgentState → Node × MultiAgentState → Prop where
  | entry (r : AgentResponse CoordinationResult) (s : MultiAgentState) :
      WStep (.coordinator_entry, s)
        (routeTarget (route_next_step (coordinator_entry_node r s)), coordinator_entry_node r s)
  | analysis (r : AgentResponse OpaqueResult) (s : MultiAgentState) :
      WStep (.explanation_analysis, s) (.coordinator_entry, explanation_analysis_node r s)
  | validation (r : AgentResponse OpaqueResult) (s : MultiAgentState) :
      WStep (.knowledge_validation, s) (.coordinator_entry, knowledge_validation_node r s)
  | question (r : AgentResponse QuestionResultData) (s : MultiAgentState) :
      WStep (.question_generation, s) (.coordinator_entry, question_generation_node r s)
  | orchestration (r : AgentResponse OpaqueResult) (s : MultiAgentState) :
      WStep (.conversation_orchestration, s)
        (.coordinator_entry, conversation_orchestration_node r s)
  | synthesis (r : AgentResponse InsightResultData) (s : MultiAgentState) :
      WStep (.insight_synthesis, s) (.coordinator_entry, insight_synthesis_node r s)
  | finalization (throws : Bool) (r : AgentResponse FinalizationResult) (s : MultiAgentState) :
      WStep (.coordinator_finalization, s)
        (.endNode, coordinator_finalization_node throws r s)

/-- The configurations reachable within one turn started on the given
inputs: the reflexive-transitive closure of `WStep` from the entry node on
the fresh initial state. -/
def WReachable (topic user_explanation session_id : String)
    (p : Node × MultiAgentState) : Prop :=
  Relation.ReflTransGen WStep
    (Node.coordinator_entry, initialState topic user_explanation session_id) p

/-- The stage name a node merges under, if it is one of the five stage
nodes. -/
def stageName : Node → Option String
  | .explanation_analysis => some ("explanation_analysis")
  | .knowledge_validation => some ("knowledge_validation")
  | .question_generation => some ("question_generation")
  | .conversation_orchestration => some ("conversation_orchestration")
  | .insight_synthesis => some ("insight_synthesis")
  | _ => none

/-- The routing invariant: the completed list has no duplicates, and a
stage node is only ever entered while its name is still absent from
`completed_tasks` (the router's re-entry guard). -/
def StageInv (p : Node × MultiAgentState) : Prop :=
  p.2.completed_tasks.Nodup ∧
    ∀ nm, stageName p.1 = some nm → p.2.completed_tasks.contains nm = false

/-- The numeric tag of a stream event's type, used to state that the
implemented stream is grouped by event type: start, then questions, then
insights. -/
def eventTag : StreamEvent → Nat
  | .start => 0
  | .question _ => 1
  | .insight _ => 2
  | .error _ => 3

/-- Whether a stream event is a per-stage payload event (question or
insight). -/
def isPayloadEvent : StreamEvent → Bool
  | .question _ => true
  | .insight _ => true
  | _ => false

/-- The content of a question event, if any. -/
def questionContent : StreamEvent → Option String
  | .question c => some c
  | _ => none

/-- The content of an insight event, if any. -/
def insightContent : StreamEvent → Option String
  | .insight c => some c
  | _ => none

/-- A benign agent behavior used to instantiate closed statements: every
agent succeeds with an empty payload and the coordinator proposes the
analysis stage. -/
def defaultOracle : Oracle where
  coord _ := ⟨true, ⟨some ("explanation_analysis")⟩⟩
  analysis _ := ⟨true, ⟨""⟩⟩
  validation _ := ⟨true, ⟨""⟩⟩
  question _ := ⟨true, ⟨⟨[], [], [], 0⟩⟩⟩
  orchestration _ := ⟨true, ⟨""⟩⟩
  insight _ := ⟨true, ⟨[]⟩⟩
  finalizationThrows _ := false
  finalization _ := ⟨true, ⟨⟨""⟩⟩⟩

/-- A behavior in which every coordinator call and every stage call fails:
the regime of the spec's all-fail termination and ceiling scenarios. -/
def allFailOracle : Oracle where
  coord _ := ⟨false, ⟨none⟩⟩
  analysis _ := ⟨false, ⟨""⟩⟩
  validation _ := ⟨false, ⟨""⟩⟩
  question _ := ⟨false, ⟨⟨[], [], [], 0⟩⟩⟩
  orchestration _ := ⟨false, ⟨""⟩⟩
  insight _ := ⟨false, ⟨[]⟩⟩
  finalizationThrows _ := true
  finalization _ := ⟨false, ⟨⟨""⟩⟩⟩

/-- A behavior in which the coordinator dispatches insight synthesis before
question generation and analysis: the synthesizer merges one insight at
step 1, the strategist one primary question at step 3, the analyzer at
step 5, after which the required stages are complete and the run
finalizes. -/
def streamOracle : Oracle where
  coord n :=
    if n = 0 then ⟨true, ⟨some ("insight_synthesis")⟩⟩
    else if n = 2 then ⟨true, ⟨some ("question_generation")⟩⟩
    else ⟨true, ⟨some ("explanation_analysis")⟩⟩
  analysis _ := ⟨true, ⟨""⟩⟩
  validation _ := ⟨true, ⟨""⟩⟩
  question _ := ⟨true, ⟨⟨[⟨"Q"⟩], [], [], 0⟩⟩⟩
  orchestration _ := ⟨true, ⟨""⟩⟩
  insight _ := ⟨true, ⟨[⟨"I"⟩]⟩⟩
  finalizationThrows _ := false
  finalization _ := ⟨true, ⟨⟨""⟩⟩⟩

/-- A state in which both required stages are already completed, used to
instantiate closed statements about the router's short-circuit. -/
def twoDoneState : MultiAgentState :=
  { initialState ("t") ("e") ("s") with
      completed_tasks := ["explanation_analysis", "question_generation"] }

/-- A state in which finalization has already completed, used to
instantiate closed statements about the finalization guard. -/
def finDoneState : MultiAgentState :=
  { initialState ("t") ("e") ("s") with
      completed_tasks := ["coordinator_finalization"] }

/-! ## Helper lemmas about the router and the nodes -/

/-- The coordinator entry node never touches `completed_tasks`. -/
lemma coordinator_entry_node_completed (r : AgentResponse CoordinationResult)
    (s : MultiAgentState) :
    (coordinator_entry_node r s).completed_tasks = s.completed_tasks := by
  unfold coordinator_entry_node
  split <;> rfl

/-- The coordinator entry node never touches `error_log`. -/
lemma coordinator_entry_node_error_log (r : AgentResponse CoordinationResult)
    (s : MultiAgentState) :
    (coordinator_entry_node r s).error_log = s.error_log := by
  unfold coordinator_entry_node
  split <;> rfl

/-- A failed coordination response leaves the state untouched. -/
lemma coordinator_entry_node_failure (r : AgentResponse CoordinationResult)
    (s : MultiAgentState) (h : r.success = false) :
    coordinator_entry_node r s = s := by
  simp [coordinator_entry_node, h]

/-- When the router dispatches to anything other than `"finalization"` or
`"end"`, the dispatched phase is not yet in `completed_tasks`: the
re-entry guard of `_route_next_step`. -/
lemma route_next_step_fresh (s : MultiAgentState) (nm : String)
    (h : route_next_step s = nm) (hfin : nm ≠ "finalization") (hend : nm ≠ "end") :
    s.completed_tasks.contains nm = false := by
  simp only [route_next_step] at h
  split_ifs at h with h1 h2 h3
  · exact absurd h.symm hfin
  · exact absurd h.symm hend
  · rw [Bool.and_eq_true, Bool.not_eq_true'] at h3
    rw [← h]
    exact h3.2
  · exact absurd h.symm hfin

/-- If the routed node is a stage node, the route string is that stage's
name. -/
lemma routeTarget_stageName (str nm : String)
    (h : stageName (routeTarget str) = some nm) : str = nm := by
  unfold routeTarget at h
  split at h <;> simp_all [stageName]

/-- The five stage names are distinct from `"finalization"` and `"end"`. -/
lemma stageName_ne (n : Node) (nm : String) (h : stageName n = some nm) :
    nm ≠ "finalization" ∧ nm ≠ "end" := by
  cases n <;> simp_all [stageName] <;> subst h <;> decide

/-- Field `completed_tasks` after the explanation-analysis node. -/
lemma explanation_analysis_node_completed (r : AgentResponse OpaqueResult)
    (s : MultiAgentState) :
    (explanation_analysis_node r s).completed_tasks =
      s.completed_tasks ++ (if r.success then ["explanation_analysis"] else []) := by
  unfold explanation_analysis_node
  split <;> simp_all

/-- Field `completed_tasks` after the knowledge-validation node. -/
lemma knowledge_validation_node_completed (r : AgentResponse OpaqueResult)
    (s : MultiAgentState) :
    (knowledge_validation_node r s).completed_tasks =
      s.completed_tasks ++ (if r.success then ["knowledge_validation"] else []) := by
  unfold knowledge_validation_node
  split <;> simp_all

/-- Field `completed_tasks` after the question-generation node. -/
lemma question_generation_node_completed (r : AgentResponse QuestionResultData)
    (s : MultiAgentState) :
    (question_generation_node r s).completed_tasks =
      s.completed_tasks ++ (if r.success then ["question_generation"] else []) := by
  unfold question_generation_node
  split <;> simp_all

/-- Field `completed_tasks` after the conversation-orchestration node. -/
lemma conversation_orchestration_node_completed (r : AgentResponse OpaqueResult)
    (s : MultiAgentState) :
    (conversation_orchestration_node r s).completed_tasks =
      s.completed_tasks ++ (if r.success then ["conversation_orchestration"] else []) := by
  unfold conversation_orchestration_node
  split <;> simp_all

/-- Field `completed_tasks` after the insight-synthesis node. -/
lemma insight_synthesis_node_completed (r : AgentResponse InsightResultData)
    (s : MultiAgentState) :
    (insight_synthesis_node r s).completed_tasks =
      s.completed_tasks ++ (if r.success then ["insight_synthesis"] else []) := by
  unfold insight_synthesis_node
  split <;> simp_all

/-- Field `completed_tasks` after the finalization node: unchanged when the node
skips, otherwise exactly one `"coordinator_finalization"` appended —
on the success path and the exception path alike. -/
lemma coordinator_finalization_node_completed (throws : Bool)
    (r : AgentResponse FinalizationResult) (s : MultiAgentState) :
    (coordinator_finalization_node throws r s).completed_tasks =
      if s.completed_tasks.contains ("coordinator_finalization") then s.completed_tasks
      else s.completed_tasks ++ ["coordinator_finalization"] := by
  unfold coordinator_finalization_node
  split_ifs with h1 h2 <;> simp_all

/-- Appending a fresh name preserves `Nodup`. -/
lemma nodup_append_fresh (l : List String) (a : String)
    (h : l.Nodup) (h2 : l.contains a = false) : (l ++ [a]).Nodup := by
  have : a ∉ l := by simpa using h2
  simp [List.nodup_append, h, this]

/-- Every graph transition preserves the routing invariant. -/
lemma wstep_stageInv {p q : Node × MultiAgentState}
    (hp : StageInv p) (h : WStep p q) : StageInv q := by
  obtain ⟨hnd, hfresh⟩ := hp
  cases h with
  | entry r s =>
      refine ⟨?_, ?_⟩
      · rw [coordinator_entry_node_completed]
        exact hnd
      · intro nm hnm
        have hstr := routeTarget_stageName _ _ hnm
        have hne := stageName_ne _ _ hnm
        exact route_next_step_fresh (coordinator_entry_node r s) nm hstr hne.1 hne.2
  | analysis r s =>
      refine ⟨?_, by intro nm hnm; simp [stageName] at hnm⟩
      rw [explanation_analysis_node_completed]
      split
      · exact nodup_append_fresh _ _ hnd (hfresh _ rfl)
      · simpa using hnd
  | validation r s =>
      refine ⟨?_, by intro nm hnm; simp [stageName] at hnm⟩
      rw [knowledge_validation_node_completed]
      split
      · exact nodup_append_fresh _ _ hnd (hfresh _ rfl)
      · simpa using hnd
  | question r s =>
      refine ⟨?_, by intro nm hnm; simp [stageName] at hnm⟩
      rw [question_generation_node_completed]
      split
      · exact nodup_append_fresh _ _ hnd (hfresh _ rfl)
      · simpa using hnd
  | orchestration r s =>
      refine ⟨?_, by intro nm hnm; simp [stageName] at hnm⟩
      rw [conversation_orchestration_node_completed]
      split
      · exact nodup_append_fresh _ _ hnd (hfresh _ rfl)
      · simpa using hnd
  | synthesis r s =>
      refine ⟨?_, by intro nm hnm; simp [stageName] at hnm⟩
      rw [insight_synthesis_node_completed]
      split
      · exact nodup_append_fresh _ _ hnd (hfresh _ rfl)
      · simpa using hnd
  | finalization throws r s =>
      refine ⟨?_, by intro nm hnm; simp [stageName] at hnm⟩
      rw [coordinator_finalization_node_completed]
      split
      · exact hnd
      next hguard => exact nodup_append_fresh _ _ hnd (by simpa using hguard)

/-- The routing invariant holds at every reachable configuration of a
turn. -/
lemma wreachable_stageInv {topic user_explanation session_id : String}
    {p : Node × MultiAgentState}
    (h : WReachable topic user_explanation session_id p) : StageInv p := by
  induction h with
  | refl =>
      exact ⟨by simp [initialState], by intro nm hnm; simp [stageName] at hnm⟩
  | tail _ hstep ih => exact wstep_stageInv ih hstep

/-- A failed analysis response leaves the state untouched. -/
lemma explanation_analysis_node_failure (r : AgentResponse OpaqueResult)
    (s : MultiAgentState) (h : r.success = false) :
    explanation_analysis_node r s = s := by
  simp [explanation_analysis_node, h]

/-- A failed validation response leaves the state untouched. -/
lemma knowledge_validation_node_failure (r : AgentResponse OpaqueResult)
    (s : MultiAgentState) (h : r.success = false) :
    knowledge_validation_node r s = s := by
  simp [knowledge_validation_node, h]

/-- A failed question-generation response leaves the state untouched. -/
lemma question_generation_node_failure (r : AgentResponse QuestionResultData)
    (s : MultiAgentState) (h : r.success = false) :
    question_generation_node r s = s := by
  simp [question_generation_node, h]

/-- A failed orchestration response leaves the state untouched. -/
lemma conversation_orchestration_node_failure (r : AgentResponse OpaqueResult)
    (s : MultiAgentState) (h : r.success = false) :
    conversation_orchestration_node r s = s := by
  simp [conversation_orchestration_node, h]

/-- A failed synthesis response leaves the state untouched. -/
lemma insight_synthesis_node_failure (r : AgentResponse InsightResultData)
    (s : MultiAgentState) (h : r.success = false) :
    insight_synthesis_node r s = s := by
  simp [insight_synthesis_node, h]

/-- On a fresh initial state with no stored decision, the router's default
dispatch is the explanation-analysis stage. -/
lemma route_next_step_initial (topic user_explanation session_id : String) :
    route_next_step (initialState topic user_explanation session_id) =
      "explanation_analysis" := rfl

/-- The graph driver never executes more node transitions than it has
fuel: the step counter of any run is bounded by the starting count plus
the remaining fuel. -/
lemma runAux_steps_le (o : Oracle) :
    ∀ (fuel count : Nat) (node : Node) (s : MultiAgentState) (log : List String),
      (runAux o fuel count node s log).steps ≤ count + fuel := by
  intro fuel
  induction fuel with
  | zero =>
      intro count node s log
      cases node <;> simp [runAux]
  | succ n ih =>
      intro count node s log
      cases node <;> simp only [runAux] <;>
        first
          | simp
          | exact le_trans (ih _ _ _ _) (by omega)

/-- When the coordinator and the explanation-analysis agent fail at every
step, the run ping-pongs between the entry node and the analysis node
without ever changing the state, until the fuel is exhausted and the
recursion error fires. -/
lemma runAux_allfail (o : Oracle) (topic user_explanation session_id : String)
    (hc : ∀ n, (o.coord n).success = false)
    (ha : ∀ n, (o.analysis n).success = false) :
    ∀ (fuel count : Nat) (node : Node) (log : List String),
      node = Node.coordinator_entry ∨ node = Node.explanation_analysis →
      runAux o fuel count node (initialState topic user_explanation session_id) log =
        ⟨.recursionError (initialState topic user_explanation session_id),
          count + fuel, log⟩ := by
  intro fuel
  induction fuel with
  | zero =>
      intro count node log hnode
      rcases hnode with h | h <;> subst h <;> simp [runAux]
  | succ n ih =>
      intro count node log hnode
      rcases hnode with h | h <;> subst h
      · show runAux o (n + 1) count Node.coordinator_entry _ log = _
        simp only [runAux]
        rw [coordinator_entry_node_failure _ _ (hc count),
          route_next_step_initial]
        have hrt : routeTarget ("explanation_analysis") = Node.explanation_analysis := rfl
        rw [hrt, ih (count + 1) Node.explanation_analysis log (Or.inr rfl)]
        congr 1
        omega
      · show runAux o (n + 1) count Node.explanation_analysis _ log = _
        simp only [runAux]
        rw [explanation_analysis_node_failure _ _ (ha count)]
        simp only [ha count, Bool.false_eq_true, if_false, List.append_nil]
        rw [ih (count + 1) Node.coordinator_entry log (Or.inl rfl)]
        congr 1
        omega

/-- Constant lists are sorted under the natural order. -/
lemma sorted_le_replicate (n a : Nat) : List.Sorted (· ≤ ·) (List.replicate n a) := by
  induction n with
  | zero => simp
  | succ k ih =>
      rw [List.replicate_succ, List.sorted_cons]
      exact ⟨fun b hb => Nat.le_of_eq (List.eq_of_mem_replicate hb).symm, ih⟩

/-! ## Claim theorems -/

/-- C1: Minimum-bar short-circuit — for every session state in which both
`explanation_analysis` and `question_generation` are members of
`completed_stages`, the routing decision function `_route_next_step`
returns `finalization` (never any other analysis stage), regardless of
which other stages are still pending. -/
theorem minimum_bar_short_circuit (s : MultiAgentState)
    (h1 : "explanation_analysis" ∈ s.completed_tasks)
    (h2 : "question_generation" ∈ s.completed_tasks) :
    route_next_step s = "finalization" := by
  simp [route_next_step, required_tasks, h1, h2]

/-- Witness for C1 at a concrete state with exactly the two required
stages completed. -/
theorem minimum_bar_short_circuit_witness :
    "explanation_analysis" ∈ twoDoneState.completed_tasks ∧
    "question_generation" ∈ twoDoneState.completed_tasks ∧
    route_next_step twoDoneState = "finalization" :=
  ⟨by decide, by decide,
    minimum_bar_short_circuit twoDoneState (by decide) (by decide)⟩

/-- C2: No re-entry — for every sequence of Coordinator decisions and stage
outcomes (success or failure) within a single turn, no stage name appears
more than once in `completed_stages`: every configuration reachable
through the step relation of the workflow graph carries a duplicate-free
`completed_tasks` list. -/
theorem no_reentry_invariant (topic user_explanation session_id : String)
    (p : Node × MultiAgentState)
    (h : WReachable topic user_explanation session_id p) :
    p.2.completed_tasks.Nodup :=
  (wreachable_stageInv h).1

/-- Witness for C2 at a concrete two-step reachable configuration: a
successful coordination call dispatching the analysis stage, followed by a
successful analysis merge. -/
theorem no_reentry_invariant_witness :
    (explanation_analysis_node ⟨true, ⟨""⟩⟩
      (coordinator_entry_node ⟨true, ⟨some ("explanation_analysis")⟩⟩
        (initialState ("t") ("e") ("s")))).completed_tasks.Nodup :=
  no_reentry_invariant ("t") ("e") ("s") _
    (Relation.ReflTransGen.tail
      (Relation.ReflTransGen.tail Relation.ReflTransGen.refl
        (WStep.entry ⟨true, ⟨some ("explanation_analysis")⟩⟩
          (initialState ("t") ("e") ("s"))))
      (WStep.analysis ⟨true, ⟨""⟩⟩
        (coordinator_entry_node ⟨true, ⟨some ("explanation_analysis")⟩⟩
          (initialState ("t") ("e") ("s")))))

/-- C3: Finalization runs at most once per turn — the finalization node
returns the state unchanged if `coordinator_finalization` is already in
`completed_tasks`; on every execution, whether the report generation
succeeds or throws, the result has `coordinator_finalization` in
`completed_tasks`; and every reachable state carries at most one
occurrence of `coordinator_finalization`. -/
theorem finalization_runs_once :
    (∀ (throws : Bool) (r : AgentResponse FinalizationResult) (s : MultiAgentState),
       "coordinator_finalization" ∈ s.completed_tasks →
       coordinator_finalization_node throws r s = s) ∧
    (∀ (throws : Bool) (r : AgentResponse FinalizationResult) (s : MultiAgentState),
       "coordinator_finalization" ∈ (coordinator_finalization_node throws r s).completed_tasks) ∧
    (∀ (topic user_explanation session_id : String) (p : Node × MultiAgentState),
       WReachable topic user_explanation session_id p →
       p.2.completed_tasks.count "coordinator_finalization" ≤ 1) := by
  refine ⟨?_, ?_, ?_⟩
  · intro throws r s h
    simp [coordinator_finalization_node, h]
  · intro throws r s
    rw [show (coordinator_finalization_node throws r s).completed_tasks = _ from
      coordinator_finalization_node_completed throws r s]
    split
    next h => simpa using h
    next _ => simp
  · intro topic user_explanation session_id p h
    exact List.nodup_iff_count_le_one.mp (wreachable_stageInv h).1 _

/-- Witness for C3: the guard skips on a state that already finalized, a
fresh run marks itself completed, and the initial configuration satisfies
the count bound. -/
theorem finalization_runs_once_witness :
    ("coordinator_finalization" ∈ finDoneState.completed_tasks ∧
      coordinator_finalization_node true ⟨false, ⟨⟨""⟩⟩⟩ finDoneState = finDoneState) ∧
    "coordinator_finalization" ∈
      (coordinator_finalization_node false ⟨true, ⟨⟨""⟩⟩⟩
        (initialState ("t") ("e") ("s"))).completed_tasks ∧
    (initialState ("t") ("e") ("s")).completed_tasks.count "coordinator_finalization" ≤ 1 :=
  ⟨⟨by decide, finalization_runs_once.1 true ⟨false, ⟨⟨""⟩⟩⟩ finDoneState (by decide)⟩,
    finalization_runs_once.2.1 false ⟨true, ⟨⟨""⟩⟩⟩ (initialState ("t") ("e") ("s")),
    finalization_runs_once.2.2 ("t") ("e") ("s") _ Relation.ReflTransGen.refl⟩

/-- C4: Always terminates — for every input and every behavior of the
Stage Agents and the Coordinator, including all-fail behaviors, driving
the workflow graph performs at most `recursion_limit` (the configured
iteration ceiling, 50) node transitions before the run ends with an
outcome. -/
theorem always_terminates_within_ceiling (o : Oracle) (s : MultiAgentState) :
    (run o s).steps ≤ recursion_limit := by
  simpa using runAux_steps_le o recursion_limit 0 .coordinator_entry s []

/-- C5 counterexample: the claim that the merge appends the stage name to
`completed_stages` unconditionally (and logs an error on failure) is false
at a concrete input — a failed explanation-analysis response leaves the
stage unmarked and the error log untouched. -/
theorem merge_semantics_counterexample :
    "explanation_analysis" ∉
      (explanation_analysis_node ⟨false, ⟨""⟩⟩
        (initialState ("t") ("e") ("s"))).completed_tasks ∧
    (explanation_analysis_node ⟨false, ⟨""⟩⟩
      (initialState ("t") ("e") ("s"))).error_log = [] := by
  decide

/-- C5 amended: each stage node appends its name to `completed_tasks` and
writes its result into its slot exactly when `response.success` is true;
on failure it returns the state unchanged — nothing is appended to
`completed_tasks` or `error_log`, so a failed stage is not marked
completed.  Only the finalization node marks itself completed
unconditionally. -/
theorem merge_semantics_amended :
    (∀ (r : AgentResponse OpaqueResult) (s : MultiAgentState),
      (r.success = false → explanation_analysis_node r s = s) ∧
      (r.success = true →
        (explanation_analysis_node r s).completed_tasks =
          s.completed_tasks ++ ["explanation_analysis"] ∧
        (explanation_analysis_node r s).analysis_results = some r.result) ∧
      (explanation_analysis_node r s).error_log = s.error_log) ∧
    (∀ (r : AgentResponse OpaqueResult) (s : MultiAgentState),
      (r.success = false → knowledge_validation_node r s = s) ∧
      (r.success = true →
        (knowledge_validation_node r s).completed_tasks =
          s.completed_tasks ++ ["knowledge_validation"] ∧
        (knowledge_validation_node r s).validation_results = some r.result) ∧
      (knowledge_validation_node r s).error_log = s.error_log) ∧
    (∀ (r : AgentResponse QuestionResultData) (s : MultiAgentState),
      (r.success = false → question_generation_node r s = s) ∧
      (r.success = true →
        (question_generation_node r s).completed_tasks =
          s.completed_tasks ++ ["question_generation"] ∧
        (question_generation_node r s).question_results = some r.result) ∧
      (question_generation_node r s).error_log = s.error_log) ∧
    (∀ (r : AgentResponse OpaqueResult) (s : MultiAgentState),
      (r.success = false → conversation_orchestration_node r s = s) ∧
      (r.success = true →
        (conversation_orchestration_node r s).completed_tasks =
          s.completed_tasks ++ ["conversation_orchestration"] ∧
        (conversation_orchestration_node r s).orchestration_results = some r.result) ∧
      (conversation_orchestration_node r s).error_log = s.error_log) ∧
    (∀ (r : AgentResponse InsightResultData) (s : MultiAgentState),
      (r.success = false → insight_synthesis_node r s = s) ∧
      (r.success = true →
        (insight_synthesis_node r s).completed_tasks =
          s.completed_tasks ++ ["insight_synthesis"] ∧
        (insight_synthesis_node r s).insight_results = some r.result) ∧
      (insight_synthesis_node r s).error_log = s.error_log) ∧
    (∀ (throws : Bool) (r : AgentResponse FinalizationResult) (s : MultiAgentState),
      "coordinator_finalization" ∈
        (coordinator_finalization_node throws r s).completed_tasks) := by
  refine ⟨?_, ?_, ?_, ?_, ?_, ?_⟩
  · intro r s
    exact ⟨explanation_analysis_node_failure r s,
      fun h => by simp [explanation_analysis_node, h],
      by unfold explanation_analysis_node; split <;> rfl⟩
  · intro r s
    exact ⟨knowledge_validation_node_failure r s,
      fun h => by simp [knowledge_validation_node, h],
      by unfold knowledge_validation_node; split <;> rfl⟩
  · intro r s
    exact ⟨question_generation_node_failure r s,
      fun h => by simp [question_generation_node, h],
      by unfold question_generation_node; split <;> rfl⟩
  · intro r s
    exact ⟨conversation_orchestration_node_failure r s,
      fun h => by simp [conversation_orchestration_node, h],
      by unfold conversation_orchestration_node; split <;> rfl⟩
  · intro r s
    exact ⟨insight_synthesis_node_failure r s,
      fun h => by simp [insight_synthesis_node, h],
      by unfold insight_synthesis_node; split <;> rfl⟩
  · intro throws r s
    rw [show (coordinator_finalization_node throws r s).completed_tasks = _ from
      coordinator_finalization_node_completed throws r s]
    split
    next h => simpa using h
    next _ => simp

/-- Witness for the amended C5: one failed and one successful
explanation-analysis merge at concrete inputs. -/
theorem merge_semantics_amended_witness :
    explanation_analysis_node ⟨false, ⟨""⟩⟩ (initialState ("t") ("e") ("s")) =
      initialState ("t") ("e") ("s") ∧
    (explanation_analysis_node ⟨true, ⟨""⟩⟩ (initialState ("t") ("e") ("s"))).completed_tasks =
      (initialState ("t") ("e") ("s")).completed_tasks ++ ["explanation_analysis"] :=
  ⟨(merge_semantics_amended.1 ⟨false, ⟨""⟩⟩ (initialState ("t") ("e") ("s"))).1 rfl,
    ((merge_semantics_amended.1 ⟨true, ⟨""⟩⟩ (initialState ("t") ("e") ("s"))).2.1 rfl).1⟩

/-- C6 counterexample: the claim that a failed Coordinator decision makes
the Router route to `finalization` is false at a concrete input — after a
failed coordination call on a fresh state, the Router dispatches the
default phase `explanation_analysis`. -/
theorem coordinator_failure_counterexample :
    route_next_step (coordinator_entry_node ⟨false, ⟨none⟩⟩
      (initialState ("t") ("e") ("s"))) = "explanation_analysis" ∧
    ("explanation_analysis" : String) ≠ "finalization" := by
  decide

/-- C6 amended: a failed coordination response leaves the state (and in
particular `coordinator_decision`) unchanged; the Router then dispatches
the stored decision's phase, defaulting to `explanation_analysis` when no
decision is available — it falls through to `finalization` only when the
required stages are complete or the defaulted phase is unmapped or already
completed, so a failed Coordinator on a fresh turn leads to
`explanation_analysis`, not `finalization`. -/
theorem coordinator_failure_amended :
    (∀ (r : AgentResponse CoordinationResult) (s : MultiAgentState),
      r.success = false → coordinator_entry_node r s = s) ∧
    (∀ s : MultiAgentState,
      s.coordinator_decision = none →
      s.completed_tasks.contains ("explanation_analysis") = false →
      s.completed_tasks.contains ("coordinator_finalization") = false →
      route_next_step s = "explanation_analysis") := by
  refine ⟨coordinator_entry_node_failure, ?_⟩
  intro s hdec hea hcf
  have hea' : "explanation_analysis" ∉ s.completed_tasks := by simpa using hea
  have hcf' : "coordinator_finalization" ∉ s.completed_tasks := by simpa using hcf
  simp [route_next_step, required_tasks, route_mapping, hdec, hea', hcf']

/-- Witness for the amended C6 at a failed coordination call on a fresh
state. -/
theorem coordinator_failure_amended_witness :
    coordinator_entry_node ⟨false, ⟨none⟩⟩ (initialState ("t") ("e") ("s")) =
      initialState ("t") ("e") ("s") ∧
    route_next_step (initialState ("t") ("e") ("s")) = "explanation_analysis" :=
  ⟨coordinator_failure_amended.1 ⟨false, ⟨none⟩⟩ (initialState ("t") ("e") ("s")) rfl,
    coordinator_failure_amended.2 (initialState ("t") ("e") ("s")) rfl (by decide) (by decide)⟩

/-- C7 counterexample: the claim that exceeding the iteration ceiling is
never surfaced, forces finalization and appends a warning to `error_log`
is false at a concrete input — under the all-fail behavior the run aborts
with the recursion error, `completed_tasks` never receives
`coordinator_finalization`, and `error_log` stays empty. -/
theorem iteration_ceiling_counterexample :
    (run allFailOracle (initialState ("t") ("e") ("s"))).outcome =
      Outcome.recursionError (initialState ("t") ("e") ("s")) ∧
    (run allFailOracle (initialState ("t") ("e") ("s"))).outcome.state.error_log = [] ∧
    "coordinator_finalization" ∉
      (run allFailOracle (initialState ("t") ("e") ("s"))).outcome.state.completed_tasks := by
  have h := runAux_allfail allFailOracle ("t") ("e") ("s") (fun _ => rfl) (fun _ => rfl)
    recursion_limit 0 .coordinator_entry [] (Or.inl rfl)
  unfold run
  rw [h]
  exact ⟨rfl, rfl, by decide⟩

/-- C7 amended: when every coordinator and analysis call fails, the run
exhausts the recursion limit and aborts with a `GraphRecursionError`
carrying the unchanged state, after exactly `recursion_limit` transitions;
the Router does not force a finalization transition and no warning entry
is appended to `error_log`. -/
theorem iteration_ceiling_amended (o : Oracle) (topic user_explanation session_id : String)
    (hc : ∀ n, (o.coord n).success = false)
    (ha : ∀ n, (o.analysis n).success = false) :
    run o (initialState topic user_explanation session_id) =
      ⟨Outcome.recursionError (initialState topic user_explanation session_id),
        recursion_limit, []⟩ ∧
    (initialState topic user_explanation session_id).error_log = [] ∧
    "coordinator_finalization" ∉
      (initialState topic user_explanation session_id).completed_tasks := by
  refine ⟨?_, rfl, by simp [initialState]⟩
  have h := runAux_allfail o topic user_explanation session_id hc ha
    recursion_limit 0 .coordinator_entry [] (Or.inl rfl)
  unfold run
  rw [h]
  norm_num

/-- Witness for the amended C7 at the concrete all-fail behavior. -/
theorem iteration_ceiling_amended_witness :
    (∀ n, (allFailOracle.coord n).success = false) ∧
    run allFailOracle (initialState ("t") ("e") ("s")) =
      ⟨Outcome.recursionError (initialState ("t") ("e") ("s")), recursion_limit, []⟩ :=
  ⟨fun _ => rfl,
    (iteration_ceiling_amended allFailOracle ("t") ("e") ("s")
      (fun _ => rfl) (fun _ => rfl)).1⟩

/-- C8: Empty-input rejection — for every call where `topic` or
`user_explanation` is the empty string, the turn fails with
`InvalidInputError` at session-state construction, before any Stage Agent
runs and before any turn result is produced. -/
theorem empty_input_rejection (o : Oracle) (topic user_explanation session_id : String)
    (h : topic = "" ∨ user_explanation = "") :
    ∃ err, executeTurn o topic user_explanation session_id = Except.error err := by
  rcases h with h | h
  · exact ⟨.emptyTopic, by simp [executeTurn, mkSessionState, h]⟩
  · by_cases ht : topic = ""
    · exact ⟨.emptyTopic, by simp [executeTurn, mkSessionState, ht]⟩
    · exact ⟨.emptyUserExplanation, by simp [executeTurn, mkSessionState, ht, h]⟩

/-- Witness for C8 at a concrete empty explanation. -/
theorem empty_input_rejection_witness :
    (("x" : String) = "" ∨ ("" : String) = "") ∧
    ∃ err, executeTurn defaultOracle ("x") ("") ("s") = Except.error err :=
  ⟨Or.inr rfl, empty_input_rejection defaultOracle ("x") ("") ("s") (Or.inr rfl)⟩

/-- C10: the final question list is built exclusively from the
`primary_questions` of the strategist's `question_set`, taken in order;
the `follow_up_questions` and `clarification_questions` lists never
influence `final_questions`; and `final_questions` is written only when
the question-generation stage succeeds. -/
theorem final_questions_from_primary :
    (∀ (r : AgentResponse QuestionResultData) (s : MultiAgentState),
      r.success = true →
        (question_generation_node r s).final_questions =
          r.result.question_set.primary_questions.map Question.content) ∧
    (∀ (r : AgentResponse QuestionResultData) (s : MultiAgentState),
      r.success = false → question_generation_node r s = s) ∧
    (∀ (qs : QuestionSet) (fu cq : List Question) (tt : Nat)
        (b : Bool) (s : MultiAgentState),
      (question_generation_node
        ⟨b, ⟨{ qs with follow_up_questions := fu, clarification_questions := cq, total_estimated_time := tt }⟩⟩ s).final_questions =
      (question_generation_node ⟨b, ⟨qs⟩⟩ s).final_questions) := by
  refine ⟨?_, question_generation_node_failure, ?_⟩
  · intro r s h
    simp [question_generation_node, h]
  · intro qs fu cq tt b s
    cases b <;> simp [question_generation_node]

/-- Witness for C10: a successful merge of one primary and one follow-up
question surfaces only the primary question's content. -/
theorem final_questions_from_primary_witness :
    (question_generation_node ⟨true, ⟨⟨[⟨"Q"⟩], [⟨"F"⟩], [⟨"C"⟩], 3⟩⟩⟩
      (initialState ("t") ("e") ("s"))).final_questions = ["Q"] ∧
    question_generation_node ⟨false, ⟨⟨[⟨"Q"⟩], [], [], 0⟩⟩⟩
      (initialState ("t") ("e") ("s")) = initialState ("t") ("e") ("s") :=
  ⟨by
    rw [final_questions_from_primary.1 ⟨true, ⟨⟨[⟨"Q"⟩], [⟨"F"⟩], [⟨"C"⟩], 3⟩⟩⟩
      (initialState ("t") ("e") ("s")) rfl]
    rfl,
   final_questions_from_primary.2.1 ⟨false, ⟨⟨[⟨"Q"⟩], [], [], 0⟩⟩⟩
     (initialState ("t") ("e") ("s")) rfl⟩

/-- C9 counterexample: the claim that the order of emitted streaming
events equals the merge order of stage results is false at a concrete
input — under `streamOracle` the insight-synthesis result is merged before
the question-generation result, yet the emitted payload events list the
question before the insight. -/
theorem streaming_order_counterexample :
    (stream_multi_agent_workflow
        (turnResultOf (run streamOracle (initialState ("t") ("e") ("s"))))).filter
        isPayloadEvent ≠
      merge_order_stream (run streamOracle (initialState ("t") ("e") ("s"))) ∧
    stream_multi_agent_workflow
        (turnResultOf (run streamOracle (initialState ("t") ("e") ("s")))) =
      [StreamEvent.start, StreamEvent.question ("Q"), StreamEvent.insight ("I")] ∧
    (run streamOracle (initialState ("t") ("e") ("s"))).mergeLog =
      ["insight_synthesis", "question_generation", "explanation_analysis"] ∧
    merge_order_stream (run streamOracle (initialState ("t") ("e") ("s"))) =
      [StreamEvent.insight ("I"), StreamEvent.question ("Q")] := by
  decide

/-- C9 amended: the streaming variant awaits the complete workflow result
and then emits events grouped by type — a start event, every question of
the result in list order, then every insight in list order — so the event
order follows the final result's field order, not the merge order of
stage results. -/
theorem streaming_grouped_amended (result : TurnResult) :
    (stream_multi_agent_workflow result).filterMap questionContent = result.questions ∧
    (stream_multi_agent_workflow result).filterMap insightContent =
      result.learning_insights ∧
    List.Sorted (· ≤ ·) ((stream_multi_agent_workflow result).map eventTag) := by
  refine ⟨?_, ?_, ?_⟩
  · have h1 : questionContent ∘ StreamEvent.question = some := rfl
    have h2 : questionContent ∘ StreamEvent.insight = fun _ => none := rfl
    simp [stream_multi_agent_workflow, List.filterMap_cons, List.filterMap_append,
      List.filterMap_map, h1, h2, questionContent]
  · have h1 : insightContent ∘ StreamEvent.question = fun _ => none := rfl
    have h2 : insightContent ∘ StreamEvent.insight = some := rfl
    simp [stream_multi_agent_workflow, List.filterMap_cons, List.filterMap_append,
      List.filterMap_map, h1, h2, insightContent]
  · have h1 : eventTag ∘ StreamEvent.question = fun _ => 1 := rfl
    have h2 : eventTag ∘ StreamEvent.insight = fun _ => 2 := rfl
    have hmap : (stream_multi_agent_workflow result).map eventTag =
        0 :: (List.replicate result.questions.length 1 ++
          List.replicate result.learning_insights.length 2) := by
      simp [stream_multi_agent_workflow, List.map_map, h1, h2, List.map_const', eventTag]
    rw [hmap, List.sorted_cons]
    refine ⟨fun b _ => Nat.zero_le b, ?_⟩
    unfold List.Sorted
    rw [List.pairwise_append]
    refine ⟨sorted_le_replicate _ 1, sorted_le_replicate _ 2, ?_⟩
    intro a ha b hb
    rw [List.eq_of_mem_replicate ha, List.eq_of_mem_replicate hb]
    decide

end Feynman
